import Mathlib

/-!
Verification of the task-app backend's authorization pipeline, tenant-scoped
realtime fan-out, and dynamic-row decoding layer.  Definitions are shallow
embeddings of `src/backend/src/models.rs`, `src/backend/src/middleware.rs`,
`src/backend/src/handlers/auth.rs` and `src/backend/src/handlers/ws.rs`.
-/

namespace TaskApp

/-! ## JSON value model (serde_json::Value as delivered in D1 rows) -/

/-- Model of `serde_json::Number`: an integer-valued number (arbitrary
precision `Int` covers i64 and u64 payloads) or a float. -/
inductive JNum where
  | int (i : Int)
  | flt
deriving DecidableEq

/-- Model of `serde_json::Value`. -/
inductive JValue where
  | null
  | bool (b : Bool)
  | num (n : JNum)
  | str (s : String)
  | arr (items : List JValue)
  | obj (fields : List (String × JValue))

/-- `i64::MIN` -/
def i64Min : Int := -9223372036854775808

/-- `i64::MAX` -/
def i64Max : Int := 9223372036854775807

/-- `serde_json::Number::as_i64`: `Some` only for integer numbers in i64 range. -/
def JNum.as_i64 : JNum → Option Int
  | .int i => if i64Min ≤ i ∧ i ≤ i64Max then some i else none
  | .flt => none

/-- `Value::as_i64` -/
def JValue.as_i64 : JValue → Option Int
  | .num n => n.as_i64
  | _ => none

/-- `Value::as_str` -/
def JValue.as_str : JValue → Option String
  | .str s => some s
  | _ => none

/-- `models.rs`: `pub type D1Row = Map<String, Value>;` -/
def D1Row : Type := List (String × JValue)

/-- `serde_json::Map::get` (keyed lookup). -/
def rowGet (row : D1Row) (field : String) : Option JValue :=
  (row.find? (fun kv => kv.1 == field)).map (fun kv => kv.2)

/-! ## ModelError (models.rs) -/

/-- `models.rs` `enum ModelError`; the `Worker`/`Serde` variants carry their
message text. -/
inductive ModelError where
  | missingField (field : String)
  | invalidType (field expected : String)
  | invalidValue (field message : String)
  | worker (msg : String)
  | serde (msg : String)
deriving DecidableEq

/-- `impl fmt::Display for ModelError` -/
def ModelError.display : ModelError → String
  | .missingField field => "missing field: " ++ field
  | .invalidType field expected =>
      "invalid type for field " ++ field ++ "; expected " ++ expected
  | .invalidValue field message =>
      "invalid value for field " ++ field ++ ": " ++ message
  | .worker msg => "d1 worker error: " ++ msg
  | .serde msg => "serialization error: " ++ msg

/-! ## Rust `str::parse::<i64>` -/

/-- Digit run to a number: `Some` iff the character list is non-empty and all
decimal digits. -/
def digitsToNat (cs : List Char) : Option Nat :=
  if cs.isEmpty then none
  else if cs.all (fun c => c.isDigit) then
    some (cs.foldl (fun acc c => acc * 10 + (c.toNat - 48)) 0)
  else none

/-- Rust `s.parse::<i64>()`: optional sign, decimal digits, i64 range check. -/
def parseI64 (s : String) : Option Int :=
  match s.data with
  | '+' :: rest =>
      (digitsToNat rest).bind (fun n =>
        if (n : Int) ≤ i64Max then some (n : Int) else none)
  | '-' :: rest =>
      (digitsToNat rest).bind (fun n =>
        if i64Min ≤ -(n : Int) then some (-(n : Int)) else none)
  | cs =>
      (digitsToNat cs).bind (fun n =>
        if (n : Int) ≤ i64Max then some (n : Int) else none)

/-! ## Required / optional field accessors (models.rs) -/

/-- `models.rs::required_i64` -/
def required_i64 (row : D1Row) (field : String) : Except ModelError Int :=
  match rowGet row field with
  | none => .error (.missingField field)
  | some (JValue.num n) =>
      match n.as_i64 with
      | some i => .ok i
      | none => .error (.invalidType field "integer")
  | some (JValue.str s) =>
      match parseI64 s with
      | some i => .ok i
      | none => .error (.invalidType field "integer")
  | some _ => .error (.invalidType field "integer")

/-- `models.rs::required_text` -/
def required_text (row : D1Row) (field : String) : Except ModelError String :=
  match rowGet row field with
  | none => .error (.missingField field)
  | some v =>
      match v.as_str with
      | some s => .ok s
      | none => .error (.invalidType field "text")

/-- The set of values the `required_i64` accessor accepts (an integer-valued
JSON number in i64 range, or a string parsing as an i64); its complement is
exactly the "present but wrong shape" case of the accessor. -/
def i64Shaped (v : JValue) : Bool :=
  match v with
  | .num n => (n.as_i64).isSome
  | .str s => (parseI64 s).isSome
  | _ => false

/-! ## Rust string primitives (char-list level, so they evaluate) -/

/-- Drop leading whitespace characters. -/
def dropLeadingWs : List Char → List Char
  | c :: cs => if c.isWhitespace then dropLeadingWs cs else c :: cs
  | [] => []

/-- Rust `str::trim`: remove leading and trailing whitespace. -/
def rustTrim (s : String) : String :=
  String.mk ((dropLeadingWs (dropLeadingWs s.data.reverse).reverse))

/-- Rust `str::split(sep)` on a character list; splitting the empty string
yields one empty piece. -/
def splitChar (sep : Char) : List Char → List (List Char)
  | [] => [[]]
  | c :: cs =>
    if c = sep then [] :: splitChar sep cs
    else
      match splitChar sep cs with
      | [] => [[c]]
      | g :: gs => (c :: g) :: gs

/-- Rust `str::split(sep)`. -/
def rustSplit (sep : Char) (s : String) : List String :=
  (splitChar sep s.data).map String.mk

/-- Rust `str::split_once(sep)` on a character list. -/
def splitOnceChar (sep : Char) : List Char → Option (List Char × List Char)
  | [] => none
  | c :: cs =>
    if c = sep then some ([], cs)
    else (splitOnceChar sep cs).map (fun p => (c :: p.1, p.2))

/-- Rust `str::split_once(sep)`: split at the first occurrence. -/
def rustSplitOnce (sep : Char) (s : String) : Option (String × String) :=
  (splitOnceChar sep s.data).map (fun p => (String.mk p.1, String.mk p.2))

/-- Prefix removal on character lists. -/
def dropPrefixChars : List Char → List Char → Option (List Char)
  | [], cs => some cs
  | p :: ps, c :: cs => if c = p then dropPrefixChars ps cs else none
  | _ :: _, [] => none

/-- Rust `str::strip_prefix(p)`: `Some` remainder iff `s` starts with `p`. -/
def stripLeading (p s : String) : Option String :=
  (dropPrefixChars p.data s.data).map String.mk

/-! ## serde_json string-array parsing (for `optional_text_vec`) -/

/-- JSON whitespace skip. -/
def skipWs : List Char → List Char
  | c :: cs => if c = ' ' ∨ c = '\t' ∨ c = '\n' ∨ c = '\r' then skipWs cs else c :: cs
  | [] => []

/-- Hex digit value. -/
def hexVal (c : Char) : Option Nat :=
  if '0' ≤ c ∧ c ≤ '9' then some (c.toNat - 48)
  else if 'a' ≤ c ∧ c ≤ 'f' then some (c.toNat - 87)
  else if 'A' ≤ c ∧ c ≤ 'F' then some (c.toNat - 55)
  else none

/-- Four hex digits to a code unit. -/
def hex4 : List Char → Option (Nat × List Char)
  | a :: b :: c :: d :: rest => do
      let va ← hexVal a
      let vb ← hexVal b
      let vc ← hexVal c
      let vd ← hexVal d
      pure (((va * 16 + vb) * 16 + vc) * 16 + vd, rest)
  | _ => none

/-- Modelled from the spec: the JSON string-literal body parser of the
`serde_json` crate (a third-party dependency, not part of this repository),
consuming characters after the opening quote up to the closing quote, with
the standard escapes including `\uXXXX` surrogate pairs.  `none` is a parse
error. -/
def parseJStringBody : Nat → List Char → Option (List Char × List Char)
  | 0, _ => none
  | _ + 1, [] => none
  | fuel + 1, c :: cs =>
    if c = '"' then some ([], cs)
    else if c = '\\' then
      match cs with
      | [] => none
      | e :: cs' =>
        if e = '"' ∨ e = '\\' ∨ e = '/' then
          (parseJStringBody fuel cs').map (fun p => (e :: p.1, p.2))
        else if e = 'b' then
          (parseJStringBody fuel cs').map (fun p => (Char.ofNat 8 :: p.1, p.2))
        else if e = 'f' then
          (parseJStringBody fuel cs').map (fun p => (Char.ofNat 12 :: p.1, p.2))
        else if e = 'n' then
          (parseJStringBody fuel cs').map (fun p => ('\n' :: p.1, p.2))
        else if e = 'r' then
          (parseJStringBody fuel cs').map (fun p => ('\r' :: p.1, p.2))
        else if e = 't' then
          (parseJStringBody fuel cs').map (fun p => ('\t' :: p.1, p.2))
        else if e = 'u' then
          match hex4 cs' with
          | none => none
          | some (n, rest) =>
            if 0xD800 ≤ n ∧ n ≤ 0xDBFF then
              match rest with
              | '\\' :: 'u' :: rest' =>
                match hex4 rest' with
                | some (lo, rest'') =>
                  if 0xDC00 ≤ lo ∧ lo ≤ 0xDFFF then
                    (parseJStringBody fuel rest'').map (fun p =>
                      (Char.ofNat (0x10000 + (n - 0xD800) * 0x400 + (lo - 0xDC00)) :: p.1, p.2))
                  else none
                | none => none
              | _ => none
            else if 0xDC00 ≤ n ∧ n ≤ 0xDFFF then none
            else (parseJStringBody fuel rest).map (fun p => (Char.ofNat n :: p.1, p.2))
        else none
    else if c.toNat < 32 then none
    else (parseJStringBody fuel cs).map (fun p => (c :: p.1, p.2))

/-- Modelled from the spec: `serde_json` parsing of the elements of a JSON
array of strings, starting right after `[` (or after a `,`).  `none` is a
parse error. -/
def parseJStrElems : Nat → List Char → Option (List String × List Char)
  | 0, _ => none
  | fuel + 1, cs =>
    match skipWs cs with
    | '"' :: rest =>
      match parseJStringBody (fuel + 1) rest with
      | none => none
      | some (content, rest') =>
        match skipWs rest' with
        | ',' :: rest'' =>
          (parseJStrElems fuel rest'').map (fun p =>
            (String.mk content :: p.1, p.2))
        | ']' :: rest'' => some ([String.mk content], rest'')
        | _ => none
    | _ => none

/-- Modelled from the spec: `serde_json::from_str::<Vec<String>>` (the
`serde_json` crate is a third-party dependency, not part of this repository):
parses a complete JSON array of strings, rejecting trailing non-whitespace.
`none` is a parse error. -/
def jsonParseStringVec (s : String) : Option (List String) :=
  match skipWs s.data with
  | '[' :: rest =>
    match skipWs rest with
    | ']' :: rest' => if (skipWs rest').isEmpty then some [] else none
    | _ =>
      match parseJStrElems (s.length + 1) rest with
      | some (elems, rest') => if (skipWs rest').isEmpty then some elems else none
      | none => none
  | _ => none

/-- `models.rs::optional_text_vec`: normalizes a native array, a JSON-encoded
string, or a comma-separated string into one ordered sequence of text; an
empty (after trim) string yields `Some []`. -/
def optional_text_vec (row : D1Row) (field : String) :
    Except ModelError (Option (List String)) :=
  match rowGet row field with
  | none => .ok none
  | some JValue.null => .ok none
  | some (JValue.arr items) =>
      (items.mapM (fun (item : JValue) =>
        match item.as_str with
        | some s => Except.ok s
        | none => Except.error (ModelError.invalidType field "array<string>"))).map some
  | some (JValue.str raw) =>
      if rustTrim raw = "" then .ok (some [])
      else
        match jsonParseStringVec raw with
        | some parsed => .ok (some parsed)
        | none => .ok (some ((rustSplit ',' raw).map (fun s => rustTrim s)))
  | some _ => .error (.invalidType field "array<string>|json-string|csv-string")

/-! ## Claims and users table -/

/-- `models.rs::Claims`: the decoded identity payload. -/
structure Claims where
  sub : String
  user_id : Int
  organization_id : Int
  role : String
  exp : Nat
deriving DecidableEq

/-- A persisted `users` row, restricted to the columns the role-freshness
lookups read (`id`, `organization_id`, `role`). -/
structure UserRow where
  id : Int
  organization_id : Int
  role : String
deriving DecidableEq

/-- Result of touching the datastore: the value, or a driver-level error
carrying its message (sqlx `Err` / `worker::Error`). -/
inductive Db (α : Type) where
  | ok (value : α)
  | error (msg : String)
deriving DecidableEq

/-! ## TokenCodec -/

/-- Modelled from the spec: the wire credential produced by the
`jsonwebtoken` crate (a third-party dependency, not part of this
repository) — a serialized claims payload plus a symmetric MAC over it.
The MAC is modelled abstractly as the pair of the signing secret and the
signed payload. -/
structure Token where
  payload : Claims
  sig : String × Claims
deriving DecidableEq

/-- Modelled from the spec: the symmetric MAC (HS256 with a shared secret)
of the `jsonwebtoken` crate, abstracted to the data it binds. -/
def signToken (secret : String) (c : Claims) : String × Claims :=
  (secret, c)

/-- `auth.rs::encode_token` / `jsonwebtoken::encode`: serialize the claims
and sign with the shared secret. -/
def encode_token (secret : String) (c : Claims) : Token :=
  { payload := c, sig := signToken secret c }

/-- Spec §4.1: any signature mismatch, malformed structure or expiry fails
the same generic error. -/
inductive AuthError where
  | invalid
deriving DecidableEq

/-- Modelled from the spec: `jsonwebtoken::decode` with
`Validation::new(Algorithm::HS256)` — verify the MAC and the `exp` claim
(epoch seconds) against the current time; does not assert the embedded role
is current. -/
def decodeToken (secret : String) (now : Nat) (t : Token) : Except AuthError Claims :=
  if t.sig = signToken secret t.payload ∧ now < t.payload.exp then .ok t.payload
  else .error .invalid

/-- `jsonwebtoken::decode` applied to a wire string: `parse` is the wire
format reader (base64/JSON layer of the third-party crate, kept abstract);
an unparsable string fails with the same generic error. -/
def jwtDecode (parse : String → Option Token) (secret : String) (now : Nat)
    (s : String) : Except AuthError Claims :=
  match parse s with
  | none => .error .invalid
  | some t => decodeToken secret now t

/-! ## Token extraction from the request -/

/-- The closure at `middleware.rs` lines 22-27 and `auth.rs` lines 275-282:
scan `&`-separated query pairs, split each at the first `=`, and take the
first `token` key whose value is non-empty. -/
def tokenFromQuery (query : String) : Option String :=
  ((rustSplit '&' query).filterMap (fun pair => rustSplitOnce '=' pair)).findSome?
    (fun kv => if kv.1 == "token" && kv.2 != "" then some kv.2 else none)

/-- `middleware.rs` lines 16-32: `Authorization: Bearer` header value,
falling back to the `token` query parameter. -/
def extractTokenAxum (authHeader queryString : Option String) : Option String :=
  let headerTok := authHeader.bind (fun h => stripLeading "Bearer " h)
  match headerTok with
  | some t => some t
  | none => queryString.bind (fun q => tokenFromQuery q)

/-- `auth.rs::extract_bearer_token`: header token first (early return),
else the `token` query parameter. -/
def extract_bearer_token (authHeader queryString : Option String) : Option String :=
  let header_token := authHeader.bind (fun v => stripLeading "Bearer " v)
  match header_token with
  | some t => some t
  | none => queryString.bind (fun q => tokenFromQuery q)

/-! ## Axum backend: auth_middleware (middleware.rs) -/

/-- `middleware.rs` lines 42-47: `SELECT role FROM users WHERE id = $1`,
`fetch_optional` — note the query filters by `id` only. -/
def sqlx_role_lookup (db : Db (List UserRow)) (userId : Int) : Db (Option String) :=
  match db with
  | .error msg => .error msg
  | .ok users => .ok (((users.filter (fun u => u.id == userId)).head?).map (fun u => u.role))

/-- `middleware.rs::auth_middleware`: extract the token (401 if absent),
decode it (401 on failure), refresh the role from the users table (401 on
lookup error or empty result), attach the updated claims. -/
def auth_middleware (parse : String → Option Token) (secret : String) (now : Nat)
    (authHeader queryString : Option String) (db : Db (List UserRow)) :
    Except (Nat × String) Claims :=
  match extractTokenAxum authHeader queryString with
  | none => .error (401, "Missing authorization token")
  | some tok =>
    match jwtDecode parse secret now tok with
    | .error _ => .error (401, "Invalid token")
    | .ok claims =>
      match sqlx_role_lookup db claims.user_id with
      | .error _ => .error (401, "Unauthorized")
      | .ok none => .error (401, "Unauthorized")
      | .ok (some latest_role) => .ok { claims with role := latest_role }

/-! ## D1 backend: query layer (models.rs) and extract_claims (auth.rs) -/

/-- `models.rs::d1_query_all`: fetch rows (driver error becomes
`ModelError::Worker`), then decode each row, requiring every row to be a
JSON object. -/
def d1_query_all {T : Type} (decode : D1Row → Except ModelError T)
    (fetch : Except String (List JValue)) : Except ModelError (List T) :=
  match fetch with
  | .error msg => .error (.worker msg)
  | .ok rows =>
      rows.mapM (fun v =>
        match v with
        | JValue.obj m => decode m
        | _ => .error (ModelError.invalidType "row" "object"))

/-- `rows.drain(..1).next()` from `models.rs::d1_query_one`.  `Vec::drain`
panics when the range end exceeds the vector length, so the zero-row case
panics instead of producing `None`; `none` models the panic. -/
def vecDrainFirst {T : Type} (rows : List T) : Option (Option T) :=
  if 1 ≤ rows.length then some rows.head? else none

/-- `models.rs::d1_query_one`: run the query, then take the first row via
`drain(..1).next()`.  The outer `Option` is `none` exactly when the
`Vec::drain` call panics (zero rows). -/
def d1_query_one {T : Type} (decode : D1Row → Except ModelError T)
    (fetch : Except String (List JValue)) : Option (Except ModelError (Option T)) :=
  match d1_query_all decode fetch with
  | .error e => some (.error e)
  | .ok rows => (vecDrainFirst rows).map Except.ok

/-- `auth.rs::RoleRow` -/
structure RoleRow where
  role : String
deriving DecidableEq

/-- `auth.rs`: `impl FromD1Row for RoleRow` — `row.get("role").and_then(Value::as_str)`,
missing or non-string both reported as `MissingField("role")`. -/
def RoleRow.from_d1_row (row : D1Row) : Except ModelError RoleRow :=
  match (rowGet row "role").bind (fun v => v.as_str) with
  | none => .error (.missingField "role")
  | some s => .ok { role := s }

/-- The D1 result set of `SELECT role FROM users WHERE id = ?1 AND
organization_id = ?2 LIMIT 1` (`auth.rs` lines 297-304): the first users row
matching both ids, projected to its `role` column and delivered as a JSON
object row. -/
def d1RoleFetch (db : Db (List UserRow)) (uid oid : Int) :
    Except String (List JValue) :=
  match db with
  | .error msg => .error msg
  | .ok users =>
      .ok (((users.filter (fun u => u.id == uid && u.organization_id == oid)).take 1).map
        (fun u => JValue.obj [("role", JValue.str u.role)]))

/-- `auth.rs::extract_claims`: extract the token (401), decode it (401),
re-resolve the role by `(user_id, organization_id)` through `d1_query_one`.
A `ModelError` (including a driver error) propagates through `?` into
`ApiError::internal`, i.e. status 500; an empty lookup result would be 401 —
but `d1_query_one` panics on zero rows, modelled by the outer `none`. -/
def extract_claims (parse : String → Option Token) (secret : String) (now : Nat)
    (authHeader queryString : Option String) (db : Db (List UserRow)) :
    Option (Except (Nat × String) Claims) :=
  match extract_bearer_token authHeader queryString with
  | none => some (.error (401, "Missing authorization token"))
  | some tok =>
    match jwtDecode parse secret now tok with
    | .error _ => some (.error (401, "Invalid token"))
    | .ok claims =>
      match d1_query_one RoleRow.from_d1_row
          (d1RoleFetch db claims.user_id claims.organization_id) with
      | none => none
      | some (.error e) => some (.error (500, e.display))
      | some (.ok none) => some (.error (401, "Unauthorized"))
      | some (.ok (some latest_role)) =>
          some (.ok { claims with role := latest_role.role })

/-! ## TenantEventBus realtime forwarder (ws.rs) -/

/-- `main.rs::WsMessage`: `{organization_id, event, payload}`. -/
structure WsMessage where
  organization_id : Int
  event : String
  payload : JValue

/-- One outcome of `rx.recv().await` on the tokio broadcast receiver:
a message, `Err(RecvError::Lagged(n))` after overflow, or
`Err(RecvError::Closed)`. -/
inductive RecvResult where
  | msg (m : WsMessage)
  | lagged (n : Nat)
  | closed

/-- The outbound forwarder of `ws.rs::handle_socket` (lines 30-40):
`while let Ok(msg) = rx.recv().await` — any `Err` (including `Lagged`)
exits the loop; a received message is written iff its `organization_id`
equals the connection's, and a failed socket write breaks the loop.
Returns the messages successfully written to the socket, in order. -/
def sendLoop (orgId : Int) (sendOk : WsMessage → Bool) :
    List RecvResult → List WsMessage
  | [] => []
  | .lagged _ :: _ => []
  | .closed :: _ => []
  | .msg m :: rest =>
    if m.organization_id == orgId then
      if sendOk m then m :: sendLoop orgId sendOk rest
      else []
    else sendLoop orgId sendOk rest

/-! ## Concrete fixtures used by witnesses and counterexamples -/

/-- A persisted users table with one user: id 1 in organization 1, role
currently `member`. -/
def wUsers : List UserRow := [{ id := 1, organization_id := 1, role := "member" }]

/-- Token claims issued while the user still had role `admin`, same tenant. -/
def wClaims : Claims :=
  { sub := "alice", user_id := 1, organization_id := 1, role := "admin", exp := 100 }

/-- Token claims for user 1 but tagged organization 2 (cross-tenant replay). -/
def wClaimsX : Claims :=
  { sub := "alice", user_id := 1, organization_id := 2, role := "admin", exp := 100 }

/-- Wire reader for the fixture token signed with secret `"s"`. -/
def wParse : String → Option Token := fun _ => some (encode_token "s" wClaims)

/-- Wire reader for the cross-tenant fixture token. -/
def wParseX : String → Option Token := fun _ => some (encode_token "s" wClaimsX)

/-- The claims the middleware should attach for the fixture request: the
token claims with the role overwritten by the persisted `member`. -/
def wFresh : Claims :=
  { sub := "alice", user_id := 1, organization_id := 1, role := "member", exp := 100 }

/-- A realtime event tagged organization 7. -/
def wMsg : WsMessage := { organization_id := 7, event := "task_updated", payload := JValue.null }

/-- A realtime event tagged organization 5. -/
def wMsgOther : WsMessage := { organization_id := 5, event := "task_updated", payload := JValue.null }

end TaskApp

deriving instance DecidableEq for Except

namespace TaskApp

/-! ## Helper lemmas -/

theorem findSome?_none_of_all {α β : Type} (f : α → Option β) :
    ∀ (l : List α), (∀ x ∈ l, f x = none) → l.findSome? f = none := by
  intro l h
  induction l with
  | nil => rfl
  | cons a as ih =>
    have ha : f a = none := h a (by simp)
    have : (a :: as).findSome? f = as.findSome? f := by
      rw [List.findSome?]
      rw [ha]
    rw [this]
    exact ih (fun x hx => h x (by simp [hx]))

theorem d1_query_one_role_nil :
    d1_query_one RoleRow.from_d1_row (Except.ok ([] : List JValue)) = none := rfl

theorem d1_query_one_role_single (r : String) :
    d1_query_one RoleRow.from_d1_row (Except.ok [JValue.obj [("role", JValue.str r)]])
      = some (Except.ok (some { role := r })) := rfl

theorem d1_role_one_eq (users : List UserRow) (uid oid : Int) :
    d1_query_one RoleRow.from_d1_row (d1RoleFetch (Db.ok users) uid oid)
      = ((users.filter (fun u => u.id == uid && u.organization_id == oid)).head?).map
          (fun u => Except.ok (some { role := u.role })) := by
  have hfetch : d1RoleFetch (Db.ok users) uid oid
      = .ok (((users.filter (fun u => u.id == uid && u.organization_id == oid)).take 1).map
          (fun u => JValue.obj [("role", JValue.str u.role)])) := rfl
  cases hF : users.filter (fun u => u.id == uid && u.organization_id == oid) with
  | nil =>
    rw [hfetch, hF]
    exact d1_query_one_role_nil
  | cons u us =>
    rw [hfetch, hF]
    exact d1_query_one_role_single u.role

/-! ## Claim theorems -/

/-- C1: Role currency — on both backends, whenever the authorization
middleware succeeds and attaches Claims, the attached role is the role
currently persisted in the users table for that user (the first matching
row's `role` column), not whatever role the credential embeds. -/
theorem role_currency (parse : String → Option Token) (secret : String) (now : Nat)
    (header query : Option String) (users : List UserRow) (c : Claims) :
    (auth_middleware parse secret now header query (Db.ok users) = .ok c →
      ∃ u, (users.filter (fun u => u.id == c.user_id)).head? = some u ∧
        c.role = u.role) ∧
    (extract_claims parse secret now header query (Db.ok users) = some (.ok c) →
      ∃ u, (users.filter (fun u =>
            u.id == c.user_id && u.organization_id == c.organization_id)).head? = some u ∧
        c.role = u.role) := by
  constructor
  · intro h
    unfold auth_middleware at h
    split at h
    · simp at h
    · split at h
      · simp at h
      · rename_i claims hD
        split at h
        · simp at h
        · simp at h
        · rename_i latest_role hL
          have hc : { claims with role := latest_role } = c := by
            simpa using h
          subst hc
          have hL' : ((users.filter (fun u => u.id == claims.user_id)).head?).map
              (fun u => u.role) = some latest_role := by
            have hlook : sqlx_role_lookup (Db.ok users) claims.user_id
                = Db.ok (((users.filter (fun u => u.id == claims.user_id)).head?).map
                    (fun u => u.role)) := rfl
            rw [hlook] at hL
            simpa using hL
          cases hHd : (users.filter (fun u => u.id == claims.user_id)).head? with
          | none => rw [hHd] at hL'; simp at hL'
          | some u =>
            rw [hHd] at hL'
            simp only [Option.map_some', Option.some.injEq] at hL'
            exact ⟨u, rfl, hL'.symm⟩
  · intro h
    unfold extract_claims at h
    split at h
    · simp at h
    · split at h
      · simp at h
      · rename_i claims hD
        split at h
        · simp at h
        · simp at h
        · simp at h
        · rename_i latest_role hL
          have hc : { claims with role := latest_role.role } = c := by
            simpa using h
          subst hc
          rw [d1_role_one_eq] at hL
          cases hHd : (users.filter (fun u =>
              u.id == claims.user_id && u.organization_id == claims.organization_id)).head? with
          | none => rw [hHd] at hL; simp at hL
          | some u =>
            rw [hHd] at hL
            simp only [Option.map_some', Option.some.injEq, Except.ok.injEq] at hL
            refine ⟨u, rfl, ?_⟩
            rw [← hL]

/-- C1 witness: a token embedding the stale role `admin` for user 1 is
refreshed to the persisted role `member` by both backends. -/
theorem role_currency_witness :
    ((∃ u, (wUsers.filter (fun u => u.id == wFresh.user_id)).head? = some u ∧
        wFresh.role = u.role) ∧
     (∃ u, (wUsers.filter (fun u =>
          u.id == wFresh.user_id && u.organization_id == wFresh.organization_id)).head?
            = some u ∧ wFresh.role = u.role)) :=
  ⟨(role_currency wParse "s" 50 (some "Bearer t") none wUsers wFresh).1 (by decide),
   (role_currency wParse "s" 50 (some "Bearer t") none wUsers wFresh).2 (by decide)⟩

/-- C2 failing input: the users table holds user 1 only in organization 1,
yet a valid, unexpired credential for user 1 tagged organization 2 is not
rejected with 401 on either backend — the axum middleware (whose query
filters by `id` only) accepts the request and attaches claims still tagged
organization 2, and the D1 backend's lookup by both ids finds no row, which
makes `d1_query_one` panic in `Vec::drain` instead of returning the `None`
that would have produced the 401. -/
theorem cross_tenant_replay_not_rejected :
    auth_middleware wParseX "s" 50 (some "Bearer t") none (Db.ok wUsers)
      = .ok { sub := "alice", user_id := 1, organization_id := 2,
              role := "member", exp := 100 } ∧
    extract_claims wParseX "s" 50 (some "Bearer t") none (Db.ok wUsers) = none := by
  exact ⟨by decide, by decide⟩

/-- C4 counterexample: with a valid credential and a failing role lookup,
the D1 backend does not return 401 — the `ModelError` propagates through
`?` into `ApiError::internal`, producing status 500. -/
theorem d1_lookup_error_returns_500 :
    extract_claims wParse "s" 50 (some "Bearer t") none (Db.error "connection reset")
      = some (.error (500, "d1 worker error: connection reset")) ∧
    (500 : Nat) ≠ 401 := by
  exact ⟨by decide, by decide⟩

/-- C4 amended: for every request whose token extraction and decoding
succeed, a datastore error during the role lookup denies the request on
both backends — with 401 on the axum backend, and with a 500 internal
error (the `ModelError::Worker` message) on the D1 backend; in neither
case are claims carrying the embedded role attached. -/
theorem fail_closed_on_lookup_error (parse : String → Option Token)
    (secret : String) (now : Nat) (header query : Option String) (msg : String)
    (tok : String) (c : Claims)
    (hT : extractTokenAxum header query = some tok)
    (hD : jwtDecode parse secret now tok = .ok c) :
    auth_middleware parse secret now header query (Db.error msg)
      = .error (401, "Unauthorized") ∧
    extract_claims parse secret now header query (Db.error msg)
      = some (.error (500, "d1 worker error: " ++ msg)) := by
  have hT' : extract_bearer_token header query = some tok := hT
  constructor
  · unfold auth_middleware
    split
    · rename_i hN
      rw [hT] at hN
      exact absurd hN (by simp)
    · rename_i t hS
      rw [hT] at hS
      injection hS with hS
      subst hS
      split
      · rename_i e hE
        rw [hD] at hE
        exact absurd hE (by simp)
      · rename_i claims hC
        rw [hD] at hC
        injection hC with hC
        subst hC
        rfl
  · unfold extract_claims
    split
    · rename_i hN
      rw [hT'] at hN
      exact absurd hN (by simp)
    · rename_i t hS
      rw [hT'] at hS
      injection hS with hS
      subst hS
      split
      · rename_i e hE
        rw [hD] at hE
        exact absurd hE (by simp)
      · rename_i claims hC
        rw [hD] at hC
        injection hC with hC
        subst hC
        rfl

/-- C4 witness: the amended behaviour at a concrete request — axum 401,
D1 500 — with the extraction and decoding hypotheses discharged. -/
theorem fail_closed_on_lookup_error_witness :
    auth_middleware wParse "s" 50 (some "Bearer t") none (Db.error "boom")
      = .error (401, "Unauthorized") ∧
    extract_claims wParse "s" 50 (some "Bearer t") none (Db.error "boom")
      = some (.error (500, "d1 worker error: " ++ "boom")) :=
  fail_closed_on_lookup_error wParse "s" 50 (some "Bearer t") none "boom" "t" wClaims
    (by decide) (by decide)

/-- C3: Tenant isolation under fan-out — every message the outbound
forwarder writes to the socket carries the connection's organization id
(in any run, whatever the socket write outcomes), and on a live connection
(all writes succeed) the written messages are exactly the received events
whose organization id matches; events of any other organization are never
forwarded. -/
theorem tenant_isolation_fanout (orgId : Int) (sendOk : WsMessage → Bool) :
    (∀ (trace : List RecvResult) (m : WsMessage),
        m ∈ sendLoop orgId sendOk trace → m.organization_id = orgId) ∧
    (∀ (events : List WsMessage), (∀ m, sendOk m = true) →
        sendLoop orgId sendOk (events.map RecvResult.msg)
          = events.filter (fun m => m.organization_id == orgId)) := by
  constructor
  · intro trace
    induction trace with
    | nil => intro m h; simp [sendLoop] at h
    | cons r rest ih =>
      intro m h
      cases r with
      | lagged n => simp [sendLoop] at h
      | closed => simp [sendLoop] at h
      | msg m' =>
        rw [sendLoop] at h
        by_cases horg : m'.organization_id == orgId
        · rw [if_pos horg] at h
          by_cases hs : sendOk m'
          · rw [if_pos hs] at h
            rcases List.mem_cons.mp h with h1 | h2
            · subst h1; exact eq_of_beq horg
            · exact ih m h2
          · rw [if_neg hs] at h
            simp at h
        · rw [if_neg horg] at h
          exact ih m h
  · intro events hOk
    induction events with
    | nil => rfl
    | cons e es ih =>
      rw [List.map_cons, sendLoop, List.filter_cons]
      by_cases horg : e.organization_id == orgId
      · rw [if_pos horg, if_pos horg, hOk e, if_pos rfl, ih]
      · rw [if_neg horg, if_neg horg, ih]

/-- C3 witness: a concrete run — the matching event of organization 7 is
written (so its tag equals the connection's), and a mixed trace is filtered
to exactly the organization-7 events. -/
theorem tenant_isolation_fanout_witness :
    wMsg.organization_id = 7 ∧
    sendLoop 7 (fun _ => true) ([wMsgOther, wMsg].map RecvResult.msg)
      = [wMsgOther, wMsg].filter (fun m => m.organization_id == 7) := by
  constructor
  · exact (tenant_isolation_fanout 7 (fun _ => true)).1 [RecvResult.msg wMsg] wMsg
      (show wMsg ∈ [wMsg] by simp)
  · exact (tenant_isolation_fanout 7 (fun _ => true)).2 [wMsgOther, wMsg] (fun _ => rfl)

/-- C9 counterexample: after the broadcast receiver reports `Lagged`, the
forwarder delivers nothing further — the very next matching event is not
written — whereas absent the lag it would be delivered.  The claim that the
loop "continues past the lag and keeps delivering subsequent events" is
false. -/
theorem ws_overflow_counterexample :
    sendLoop 7 (fun _ => true) [RecvResult.lagged 3, RecvResult.msg wMsg] = [] ∧
    sendLoop 7 (fun _ => true) [RecvResult.msg wMsg] = [wMsg] ∧
    ([] : List WsMessage) ≠ [wMsg] := by
  refine ⟨rfl, ?_, by simp⟩
  show (if wMsg.organization_id == 7 then if true then wMsg :: sendLoop 7 (fun _ => true) [] else [] else sendLoop 7 (fun _ => true) []) = [wMsg]
  rfl

/-- C9 amended: a `Lagged` receive error terminates the outbound forwarder
loop immediately — no later event on the trace is delivered, whatever comes
after the overflow; the connection's send task therefore ends (and the
sibling reader is aborted), rather than the loop skipping the lag. -/
theorem ws_lag_terminates_forwarder (orgId : Int) (sendOk : WsMessage → Bool)
    (n : Nat) (rest : List RecvResult) :
    sendLoop orgId sendOk (RecvResult.lagged n :: rest) = [] := rfl

/-- C5: `d1_query_one` on a query yielding zero rows does not return
`Ok(None)` — the `rows.drain(..1)` call panics (range end 1 exceeds length
0), modelled by the outer `none`; with at least one row it does return the
decoded first row. -/
theorem d1_query_one_zero_rows_panics :
    d1_query_one RoleRow.from_d1_row (Except.ok ([] : List JValue)) = none ∧
    d1_query_one RoleRow.from_d1_row
        (Except.ok [JValue.obj [("role", JValue.str "admin")]])
      = some (.ok (some { role := "admin" })) := by
  exact ⟨by decide, by decide⟩

/-- C6: Credential round-trip — decoding the token produced by encoding a
claims value with the same secret yields the original claims whenever the
expiry is still in the future, and fails with the generic invalid error
once the expiry has passed. -/
theorem credential_roundtrip (secret : String) (c : Claims) (now : Nat) :
    (now < c.exp → decodeToken secret now (encode_token secret c) = .ok c) ∧
    (c.exp ≤ now → decodeToken secret now (encode_token secret c) = .error .invalid) := by
  constructor
  · intro h
    simp [decodeToken, encode_token, h]
  · intro h
    simp [decodeToken, encode_token, Nat.not_lt.mpr h]

/-- C6 witness: a concrete claims value round-trips before its expiry and is
rejected after it. -/
theorem credential_roundtrip_witness :
    (50 < wClaims.exp ∧
      decodeToken "s" 50 (encode_token "s" wClaims) = .ok wClaims) ∧
    (wClaims.exp ≤ 200 ∧
      decodeToken "s" 200 (encode_token "s" wClaims) = .error .invalid) :=
  ⟨⟨by decide, (credential_roundtrip "s" wClaims 50).1 (by decide)⟩,
   ⟨by decide, (credential_roundtrip "s" wClaims 200).2 (by decide)⟩⟩

/-- C8: Required-field accessor strictness — for every row and field, the
required accessors return `MissingField(field)` whenever the field is
absent (whatever else the row holds), and `InvalidType(field, expected)`
whenever the field is present but its value is not of the accepted shape;
in particular an absent required field is never defaulted. -/
theorem required_field_strictness (row : D1Row) (field : String) :
    (rowGet row field = none →
      required_text row field = .error (.missingField field) ∧
      required_i64 row field = .error (.missingField field)) ∧
    (∀ v, rowGet row field = some v → v.as_str = none →
      required_text row field = .error (.invalidType field "text")) ∧
    (∀ v, rowGet row field = some v → i64Shaped v = false →
      required_i64 row field = .error (.invalidType field "integer")) := by
  refine ⟨fun h => ⟨?_, ?_⟩, fun v hv hs => ?_, fun v hv hs => ?_⟩
  · unfold required_text
    rw [h]
  · unfold required_i64
    rw [h]
  · cases v with
    | str s => exact absurd hs (by simp [JValue.as_str])
    | null => simp [required_text, hv, JValue.as_str]
    | bool b => simp [required_text, hv, JValue.as_str]
    | num n => simp [required_text, hv, JValue.as_str]
    | arr items => simp [required_text, hv, JValue.as_str]
    | obj fields => simp [required_text, hv, JValue.as_str]
  · cases v with
    | num n =>
      have hn : n.as_i64 = none := by
        simpa [i64Shaped] using hs
      simp [required_i64, hv, hn]
    | str s =>
      have hn : parseI64 s = none := by
        simpa [i64Shaped] using hs
      simp [required_i64, hv, hn]
    | null => simp [required_i64, hv]
    | bool b => simp [required_i64, hv]
    | arr items => simp [required_i64, hv]
    | obj fields => simp [required_i64, hv]

/-- C8 witness: a row holding only a boolean field `a` — the accessors
report `MissingField` for the absent `id` and `InvalidType` for the
wrong-shaped `a`. -/
theorem required_field_strictness_witness :
    (required_text [("a", JValue.bool true)] "id"
        = .error (.missingField "id") ∧
     required_i64 [("a", JValue.bool true)] "id"
        = .error (.missingField "id")) ∧
    required_text [("a", JValue.bool true)] "a"
        = .error (.invalidType "a" "text") ∧
    required_i64 [("a", JValue.bool true)] "a"
        = .error (.invalidType "a" "integer") :=
  ⟨(required_field_strictness [("a", JValue.bool true)] "id").1 rfl,
   (required_field_strictness [("a", JValue.bool true)] "a").2.1
     (JValue.bool true) rfl rfl,
   (required_field_strictness [("a", JValue.bool true)] "a").2.2
     (JValue.bool true) rfl rfl⟩

/-- C10: Implicit — an empty-valued `token` query parameter is treated as
absent: if the Authorization header is missing and every `token` pair in
the query string has an empty value, token extraction yields `none` on both
backends (so nothing is ever handed to the token decoder) and both
backends reject the request with 401 "Missing authorization token". -/
theorem empty_query_token_treated_as_missing (query : String)
    (h : ∀ kv ∈ (rustSplit '&' query).filterMap (fun pair => rustSplitOnce '=' pair),
        kv.1 = "token" → kv.2 = "") :
    tokenFromQuery query = none ∧
    (∀ (parse : String → Option Token) (secret : String) (now : Nat)
        (db : Db (List UserRow)),
      auth_middleware parse secret now none (some query) db
        = .error (401, "Missing authorization token") ∧
      extract_claims parse secret now none (some query) db
        = some (.error (401, "Missing authorization token"))) := by
  have hq : tokenFromQuery query = none := by
    unfold tokenFromQuery
    apply findSome?_none_of_all
    intro kv hkv
    by_cases hk : kv.1 = "token"
    · have hv : kv.2 = "" := h kv hkv hk
      simp [hk, hv]
    · simp [hk]
  refine ⟨hq, fun parse secret now db => ⟨?_, ?_⟩⟩
  · unfold auth_middleware
    have hx : extractTokenAxum none (some query) = none := by
      unfold extractTokenAxum
      simpa using hq
    rw [hx]
  · unfold extract_claims
    have hx : extract_bearer_token none (some query) = none := by
      unfold extract_bearer_token
      simpa using hq
    rw [hx]

/-- C10 witness: the concrete query string `token=` (empty-valued token
parameter, no header) is rejected as a missing token. -/
theorem empty_query_token_witness :
    tokenFromQuery "token=" = none ∧
    auth_middleware wParse "s" 50 none (some "token=") (Db.ok wUsers)
      = .error (401, "Missing authorization token") ∧
    extract_claims wParse "s" 50 none (some "token=") (Db.ok wUsers)
      = some (.error (401, "Missing authorization token")) := by
  have happ := empty_query_token_treated_as_missing "token=" (by decide)
  exact ⟨happ.1, (happ.2 wParse "s" 50 (Db.ok wUsers)).1,
    (happ.2 wParse "s" 50 (Db.ok wUsers)).2⟩

/-- C7: Tag normalization equivalence — a native array, a JSON-encoded
string and a comma-separated string all decode to the same ordered sequence
`["a", "b", "c"]`, and the empty string decodes to the empty sequence, not
`None`. -/
theorem tag_normalization_equivalence :
    optional_text_vec [("tags", JValue.arr [.str "a", .str "b", .str "c"])] "tags"
      = .ok (some ["a", "b", "c"]) ∧
    optional_text_vec [("tags", JValue.str "[\"a\",\"b\",\"c\"]")] "tags"
      = .ok (some ["a", "b", "c"]) ∧
    optional_text_vec [("tags", JValue.str "a,b,c")] "tags"
      = .ok (some ["a", "b", "c"]) ∧
    optional_text_vec [("tags", JValue.str "")] "tags" = .ok (some []) :=
  ⟨by decide, by decide, by decide, by decide⟩

end TaskApp
